import Mathlib

/-!
Shallow embedding of the bahati client-autofill scripts.

Sources embedded:
- `src/unnamed/part_000` (spinner variant of `add_schedule_defaults.js`):
  `forceSet`, `fetchJSON`, `getClientDefaults`, `locateFields` (as a record of
  optional field elements), `setDisabled`, `handleClientChange`.
- `src/scheduler/static/add_schedule_defaults.js`: `fetchClientDefaults`.
- `src/scheduler/scheduler/admin_client_defaults.js`: `applyClientDefaults`
  (fill-if-empty), `currentClientId`, `bindRow`/`bindAll` listener registration.
- `src/scheduler/static/scheduler/client_typeahead.js`: `searchClients`,
  `rebuildOptions`, the status/catch logic of the debounced `run` handler.

Conventions: a JSON string property is `Option String` (`none` = absent/null,
`some ""` is falsy like JS `""`); a DOM element that may be missing is
`Option _`; one `fetch` round trip is summarized by a `FetchOutcome`
constructor as the JS caller observes it; an async function that can reject
past its own boundary returns `Except Unit _`, one that catches everything
returns a plain value.
-/

namespace Bahati

/-- JS `x || dflt` on a string-valued JSON property: `none` (absent/null)
and `some ""` are falsy. -/
def jsOrStr (x : Option String) (dflt : String) : String :=
  match x with
  | some s => if s == "" then dflt else s
  | none => dflt

/-- JS `String.prototype.trim`: strip leading and trailing whitespace
(written over the character list so that it evaluates by reduction). -/
def jsTrim (s : String) : String :=
  ⟨((s.data.dropWhile Char.isWhitespace).reverse.dropWhile Char.isWhitespace).reverse⟩

/-- The regex test `/^\d+$/.test s`: nonempty and all decimal digits. -/
def isDigits (s : String) : Bool :=
  !(s == "") && s.data.all (fun c => c.isDigit)

/-- Outcome of one `fetch` round trip as the JS caller observes it:
a parsed body, a non-2xx status, a non-JSON content type (e.g. an HTML
login page), a JSON content type whose body fails to parse, or a network
error (the `fetch` promise itself rejects). -/
inductive FetchOutcome (α : Type) where
  | success (body : α)
  | httpError
  | nonJSON
  | badJSON
  | networkError
deriving DecidableEq

/-- Body of `/service/api/client/{id}/mini/` as read by `getClientDefaults`
and `fetchMini`: flat optional string properties. -/
structure MiniBody where
  pickup_address : Option String
  dropoff_address : Option String
  pickup_time : Option String
  start_time : Option String
  notes : Option String
  pickup_city : Option String
  pickup_state : Option String
  dropoff_city : Option String
  dropoff_state : Option String
deriving DecidableEq

/-- part_000 `fetchJSON`: the try/catch spans the status check, the
content-type check, and `res.json()`, so every failure becomes `null`
and nothing escapes. -/
def fetchJSON (o : FetchOutcome MiniBody) : Option MiniBody :=
  match o with
  | .success b => some b
  | .httpError => none
  | .nonJSON => none
  | .badJSON => none
  | .networkError => none

/-- The normalized record `getClientDefaults` builds (the `_source` tag is
metadata and omitted). -/
structure ClientDefaults where
  pickup_address : String
  dropoff_address : String
  pickup_time : String
  notes : String
  pickup_city : String
  pickup_state : String
  dropoff_city : String
  dropoff_state : String
deriving DecidableEq

/-- Field-by-field normalization in part_000 `getClientDefaults`:
`d.pickup_time || d.start_time || ""` and `d.x || ""` elsewhere. -/
def normalizeMini (d : MiniBody) : ClientDefaults where
  pickup_address := jsOrStr d.pickup_address ""
  dropoff_address := jsOrStr d.dropoff_address ""
  pickup_time := jsOrStr d.pickup_time (jsOrStr d.start_time "")
  notes := jsOrStr d.notes ""
  pickup_city := jsOrStr d.pickup_city ""
  pickup_state := jsOrStr d.pickup_state ""
  dropoff_city := jsOrStr d.dropoff_city ""
  dropoff_state := jsOrStr d.dropoff_state ""

/-- part_000 `getClientDefaults`: fetch the mini body, `null` stays `null`,
an object is normalized (an object is always truthy, so `if (!d)` only
filters the `null` case). -/
def getClientDefaults (o : FetchOutcome MiniBody) : Option ClientDefaults :=
  (fetchJSON o).map normalizeMini

/-- One dependent form field: its current value and disabled flag. -/
structure FieldEl where
  value : String
  disabled : Bool
deriving DecidableEq

/-- The record `locateFields()` returns in part_000: each slot is the field
element if the locator found one (`none` models a missing field, which
`forceSet`/`setDisabled` skip). -/
structure ScopeFields where
  pickup : Option FieldEl
  dropoff : Option FieldEl
  start : Option FieldEl
  notes : Option FieldEl
  pCity : Option FieldEl
  pState : Option FieldEl
  dCity : Option FieldEl
  dState : Option FieldEl
deriving DecidableEq

/-- part_000 `forceSet`: returns `false` on a missing element; otherwise
writes the value unconditionally (no emptiness check) and returns `true`.
The input/change events and the background flash have no bearing on the
field value and are not tracked here. -/
def forceSet (el : Option FieldEl) (v : String) : Option FieldEl × Bool :=
  match el with
  | none => (none, false)
  | some f => (some { f with value := v }, true)

/-- Set the disabled flag on one optional field element. -/
def setFlag (b : Bool) (el : Option FieldEl) : Option FieldEl :=
  el.map (fun f => { f with disabled := b })

/-- part_000 `setDisabled`: flips the disabled flag on every located field. -/
def setDisabled (fs : ScopeFields) (b : Bool) : ScopeFields where
  pickup := setFlag b fs.pickup
  dropoff := setFlag b fs.dropoff
  start := setFlag b fs.start
  notes := setFlag b fs.notes
  pCity := setFlag b fs.pCity
  pState := setFlag b fs.pState
  dCity := setFlag b fs.dCity
  dState := setFlag b fs.dState

/-- The fill block of `handleClientChange` (part_000 lines 141-149):
the four base fields are `forceSet` unconditionally and reported whenever
the element exists; the city/state fields are guarded by JS truthiness of
the fetched value (short-circuit: falsy value means `forceSet` is not
called at all). -/
def applyDefaults (fs : ScopeFields) (d : ClientDefaults) : ScopeFields × List String :=
  let r1 := forceSet fs.pickup d.pickup_address
  let r2 := forceSet fs.dropoff d.dropoff_address
  let r3 := forceSet fs.start d.pickup_time
  let r4 := forceSet fs.notes d.notes
  let r5 := if d.pickup_city == "" then (fs.pCity, false) else forceSet fs.pCity d.pickup_city
  let r6 := if d.pickup_state == "" then (fs.pState, false) else forceSet fs.pState d.pickup_state
  let r7 := if d.dropoff_city == "" then (fs.dCity, false) else forceSet fs.dCity d.dropoff_city
  let r8 := if d.dropoff_state == "" then (fs.dState, false) else forceSet fs.dState d.dropoff_state
  let filled :=
    (if r1.2 then ["pickup_address"] else []) ++
    (if r2.2 then ["dropoff_address"] else []) ++
    (if r3.2 then ["start_time/pickup_time"] else []) ++
    (if r4.2 then ["notes"] else []) ++
    (if r5.2 then ["pickup_city"] else []) ++
    (if r6.2 then ["pickup_state"] else []) ++
    (if r7.2 then ["dropoff_city"] else []) ++
    (if r8.2 then ["dropoff_state"] else [])
  ({ pickup := r1.1, dropoff := r2.1, start := r3.1, notes := r4.1,
     pCity := r5.1, pState := r6.1, dCity := r7.1, dState := r8.1 }, filled)

/-- Visible scope state: the located fields plus the spinner visibility. -/
structure ScopeState where
  fields : ScopeFields
  spinner : Bool
deriving DecidableEq

/-- Busy-gate events: `enter` = spinner shown and fields disabled,
`leave` = spinner hidden and fields re-enabled. -/
inductive GateEvent where
  | enter
  | leave
deriving DecidableEq

/-- The `finally` block of `handleClientChange`: hide the spinner and
re-enable every located field. -/
def finallyCleanup (st : ScopeState) : ScopeState where
  fields := setDisabled st.fields false
  spinner := false

/-- The synchronous prefix of one `handleClientChange` invocation, up to the
`await getClientDefaults(...)` suspension point: trim the control value,
bail out on a non-numeric id, otherwise show the spinner and disable the
fields.  Returns whether the fetch attempt began. -/
def prePhase (raw : String) (st : ScopeState) : ScopeState × Bool :=
  if isDigits (jsTrim raw) then
    ({ fields := setDisabled st.fields true, spinner := true }, true)
  else (st, false)

/-- The continuation of one `handleClientChange` invocation that runs when
its fetch settles: on `null` defaults only the `finally` cleanup runs
(the `if (!d) return` path); on defaults the fill block runs and then the
`finally` cleanup.  Nothing in the body can throw (`fetchJSON` catches,
`forceSet`/`emit` guard their risky parts), so the cleanup is
unconditional. -/
def postPhase (o : FetchOutcome MiniBody) (st : ScopeState) : ScopeState × List String :=
  match getClientDefaults o with
  | none => (finallyCleanup st, [])
  | some d =>
      let r := applyDefaults st.fields d
      (finallyCleanup { st with fields := r.1 }, r.2)

/-- One complete, non-overlapped `handleClientChange` invocation: the pre
phase followed by the post phase, with the gate-event log of the attempt. -/
def handleClientChange (raw : String) (o : FetchOutcome MiniBody) (st : ScopeState) :
    ScopeState × List String × List GateEvent :=
  let pre := prePhase raw st
  if pre.2 then
    let post := postPhase o pre.1
    (post.1, post.2, [GateEvent.enter, GateEvent.leave])
  else (st, [], [])

/-- Two overlapping `handleClientChange` invocations on one scope, in the
interleaving of spec property 8.2: selection `rawA` fires, then `rawB`
fires before the fetch of A resolves, then the response of B arrives, then
the response of A arrives last.  Each phase is atomic on the single JS thread; the
only suspension point is the awaited fetch. -/
def twoFetchRun (rawA rawB : String) (oA oB : FetchOutcome MiniBody) (st0 : ScopeState) :
    ScopeState :=
  let preA := prePhase rawA st0
  let preB := prePhase rawB preA.1
  let afterB := if preB.2 then (postPhase oB preB.1).1 else preB.1
  if preA.2 then (postPhase oA afterB).1 else afterB

/-- Body of the `/defaults/` endpoints as read by `fetchClientDefaults` and
`applyClientDefaults`: an `ok` flag (absent flag is falsy) and an optional
`client` object of optional string properties. -/
structure ClientObj where
  pickup_address : Option String
  pickup_city : Option String
  pickup_state : Option String
  dropoff_address : Option String
  dropoff_city : Option String
  dropoff_state : Option String
  pickup_time : Option String
  start_time : Option String
  notes : Option String
deriving DecidableEq

/-- JSON body `{ ok, client }` of the defaults endpoints. -/
structure DefaultsBody where
  ok : Option Bool
  client : Option ClientObj
deriving DecidableEq

/-- `add_schedule_defaults.js` `fetchClientDefaults`: no try/catch and no
content-type check.  A falsy client id returns `null`; a non-2xx status
returns `null`; `json.ok ? json.client : null` handles a parsed body; but a
rejecting `fetch` (network error) or a rejecting `resp.json()` (HTML or
malformed body) escapes the async function as a rejection (`Except.error`). -/
def fetchClientDefaults (clientId : String) (o : FetchOutcome DefaultsBody) :
    Except Unit (Option ClientObj) :=
  if clientId == "" then .ok none
  else match o with
    | .success b => .ok (if b.ok == some true then b.client else none)
    | .httpError => .ok none
    | .nonJSON => .error ()
    | .badJSON => .error ()
    | .networkError => .error ()

/-- The admin fields record `applyClientDefaults` locates by name suffix:
`some v` is a field with current value `v`, `none` a missing field. -/
structure AdminFields where
  pickup_address : Option String
  pickup_city : Option String
  pickup_state : Option String
  dropoff_address : Option String
  dropoff_city : Option String
  dropoff_state : Option String
deriving DecidableEq

/-- One admin fill line: `if (field && !field.value) field.value = c.x || ""`. -/
def fillIfEmpty (fld : Option String) (dv : Option String) : Option String :=
  match fld with
  | some v => if v == "" then some (jsOrStr dv "") else some v
  | none => none

/-- Outcome of one `fetch` round trip for a caller that never consults the
HTTP status or the content type: the parsed JSON body (whatever the status
code was — a non-2xx body parses here all the same), a body `resp.json()`
fails to parse, or a rejected `fetch`. -/
inductive RawFetch (α : Type) where
  | body (parsed : α)
  | parseError
  | networkError
deriving DecidableEq

/-- `admin_client_defaults.js` `applyClientDefaults`, observable effect on
the fields.  The JS checks neither `resp.ok` nor the content type: it
always calls `resp.json()`, so the HTTP status is irrelevant and a non-2xx
response whose body parses as `{ok:true, client}` fills fields exactly
like a 200 — hence the `RawFetch` input with no status constructor.  The
try/catch spans the fetch, `resp.json()` and the fill block, so a rejected
fetch, an unparseable body, or an `ok`-falsy body leaves the fields
untouched and nothing escapes.  With `ok` truthy but `client` absent, the
first attempted property access on `undefined` throws into the same catch
before any assignment completes, so the fields are again untouched. -/
def applyClientDefaults (clientId : String) (o : RawFetch DefaultsBody)
    (fs : AdminFields) : AdminFields :=
  if clientId == "" then fs
  else match o with
    | .body b =>
        if b.ok == some true then
          match b.client with
          | some c =>
              { pickup_address := fillIfEmpty fs.pickup_address c.pickup_address
                pickup_city := fillIfEmpty fs.pickup_city c.pickup_city
                pickup_state := fillIfEmpty fs.pickup_state c.pickup_state
                dropoff_address := fillIfEmpty fs.dropoff_address c.dropoff_address
                dropoff_city := fillIfEmpty fs.dropoff_city c.dropoff_city
                dropoff_state := fillIfEmpty fs.dropoff_state c.dropoff_state }
          | none => fs
        else fs
    | .parseError => fs
    | .networkError => fs

/-- The raw-id branch of `currentClientId`: a present, truthy, all-digit
value passes; anything else falls through to `null`. -/
def currentPkBranch (clientPkInput : Option String) : Option String :=
  match clientPkInput with
  | some v => if !(v == "") && isDigits v then some v else none
  | none => none

/-- `admin_client_defaults.js` `currentClientId`: the admin-autocomplete
hidden input wins whenever its value is truthy — with no digit check —
otherwise the raw-id input is consulted with the `/^\d+$/` test. -/
def currentClientId (autoHidden clientPkInput : Option String) : Option String :=
  match autoHidden with
  | some v => if !(v == "") then some v else currentPkBranch clientPkInput
  | none => currentPkBranch clientPkInput

/-- Whether one firing of the `bindRow` change handler reaches the `fetch`
call: `if (cid) applyClientDefaults(...)` in the handler, then
`if (!clientId) return` at the top of `applyClientDefaults`. -/
def adminFetchIssued (autoHidden clientPkInput : Option String) : Bool :=
  match currentClientId autoHidden clientPkInput with
  | some cid => !(cid == "")
  | none => false

/-- The DOM listener list of one scope root, abstracted to its length:
`addEventListener("change", fresh-closure)` appends a distinct listener on
every call, so duplicates are never coalesced. -/
structure ScopeBind where
  listeners : Nat
deriving DecidableEq

/-- `bindRow` on one scope root: registers one more change listener,
unconditionally — there is no bound-marker guard. -/
def bindRow (s : ScopeBind) : ScopeBind where
  listeners := s.listeners + 1

/-- One `bindAll` pass: `bindRow` on every matching scope in the document,
already-bound or not. -/
def bindAllPass (scopes : List ScopeBind) : List ScopeBind :=
  scopes.map bindRow

/-- Reconciliation fetches one change event triggers on a scope: every
registered listener runs the handler, and each handler that sees a truthy
client id issues its own fetch. -/
def fetchesPerChange (s : ScopeBind) (autoHidden clientPkInput : Option String) : Nat :=
  if adminFetchIssued autoHidden clientPkInput then s.listeners else 0

/-- One search result item; `name` is an optional string property. -/
structure SearchItem where
  id : Nat
  name : Option String
deriving DecidableEq

/-- Search endpoint page body. -/
structure SearchPage where
  results : List SearchItem
  has_more : Bool
deriving DecidableEq

/-- The client-side empty page `{results: [], has_more: false}`. -/
def emptyPage : SearchPage where
  results := []
  has_more := false

/-- `client_typeahead.js` `searchClients`: a non-2xx status or a non-JSON
content type yields the empty page, a parsed body is returned as is — but
there is no try/catch, so a rejecting `fetch` (network error) or a
rejecting `res.json()` (JSON content type, malformed body) escapes as a
rejection. -/
def searchClients (q : String) (o : FetchOutcome SearchPage) : Except Unit SearchPage :=
  match o with
  | .success p => .ok p
  | .httpError => .ok emptyPage
  | .nonJSON => .ok emptyPage
  | .badJSON => .error ()
  | .networkError => .error ()

/-- One option element of the selection control. -/
structure OptionEl where
  value : String
  label : String
deriving DecidableEq

/-- The selection control: its option list and its current value (the DOM
selects the first option, the placeholder with value `""`, when no option
is explicitly marked selected). -/
structure SelectEl where
  options : List OptionEl
  value : String
deriving DecidableEq

/-- The placeholder option inserted first on every rebuild. -/
def placeholderOption : OptionEl where
  value := ""
  label := "— Select client —"

/-- The option built for one result: `value = String(r.id)`,
`label = r.name || "Client #" + r.id`. -/
def optionFor (r : SearchItem) : OptionEl where
  value := toString r.id
  label := jsOrStr r.name ("Client #" ++ toString r.id)

/-- `client_typeahead.js` `rebuildOptions`: remember the old value
(`keepValue ?? select.value`), clear the control, append the placeholder
then one option per result in order; the placeholder is auto-selected, and
if the old value is truthy and occurs among the new option values it is
re-selected; finally dispatch an input event then a change event.  Returns
the rebuilt control and the dispatched event types in order. -/
def rebuildOptions (sel : SelectEl) (results : List SearchItem)
    (keepValue : Option String) : SelectEl × List String :=
  let old := keepValue.getD sel.value
  let opts := placeholderOption :: results.map optionFor
  let newVal :=
    if old == "" then ""
    else if opts.any (fun o => o.value == old) then old else ""
  ({ options := opts, value := newVal }, ["input", "change"])

/-- The status/catch logic of the debounced `run` handler in `injectUI`:
a rejection from `searchClients` is caught and reported as
"Search failed"; otherwise the status reflects the page. -/
def runStatus (q : String) (o : FetchOutcome SearchPage) : String :=
  match searchClients q o with
  | .ok page =>
      if !(q == "") && page.has_more then
        "Showing " ++ toString page.results.length ++ "+ results… refine your search"
      else if !(q == "") then "Found " ++ toString page.results.length
      else ""
  | .error _ => "Search failed"

/-- Whether one optional field element is enabled (a missing field imposes
nothing). -/
def enabledOk (el : Option FieldEl) : Bool :=
  match el with
  | none => true
  | some f => !f.disabled

/-- All located fields of a scope are enabled. -/
def allEnabled (fs : ScopeFields) : Bool :=
  enabledOk fs.pickup && enabledOk fs.dropoff && enabledOk fs.start &&
  enabledOk fs.notes && enabledOk fs.pCity && enabledOk fs.pState &&
  enabledOk fs.dCity && enabledOk fs.dState

/-- A scope whose eight fields are all present, empty and enabled. -/
def emptyScenario : ScopeState where
  fields :=
    { pickup := some ⟨"", false⟩, dropoff := some ⟨"", false⟩
      start := some ⟨"", false⟩, notes := some ⟨"", false⟩
      pCity := some ⟨"", false⟩, pState := some ⟨"", false⟩
      dCity := some ⟨"", false⟩, dState := some ⟨"", false⟩ }
  spinner := false

/-- The spec section 8.7 scenario response, in the flat shape of the
`/mini/` endpoint that `getClientDefaults` actually reads: pickup address
present, dropoff address explicitly empty, notes present. -/
def scenarioBody : MiniBody where
  pickup_address := some "12 Elm St"
  dropoff_address := some ""
  pickup_time := none
  start_time := none
  notes := some "VIP"
  pickup_city := none
  pickup_state := none
  dropoff_city := none
  dropoff_state := none

/-- Response body of the older selection A in the race scenario. -/
def miniA : MiniBody :=
  ⟨some "100 A St", none, none, none, none, none, none, none, none⟩

/-- Response body of the newer selection B in the race scenario. -/
def miniB : MiniBody :=
  ⟨some "200 B St", none, none, none, none, none, none, none, none⟩

/-- Defaults body offering a pickup address for an already-edited field. -/
def overwriteBody : MiniBody :=
  ⟨some "12 Elm St", none, none, none, none, none, none, none, none⟩

/-- A scope whose pickup field holds a manual, non-empty edit. -/
def manualState : ScopeState where
  fields :=
    { pickup := some ⟨"Manual St", false⟩, dropoff := some ⟨"", false⟩
      start := some ⟨"", false⟩, notes := some ⟨"", false⟩
      pCity := some ⟨"", false⟩, pState := some ⟨"", false⟩
      dCity := some ⟨"", false⟩, dState := some ⟨"", false⟩ }
  spinner := false

/-- Client object of a defaults-endpoint body offering a pickup address. -/
def elmClient : ClientObj :=
  ⟨some "12 Elm St", none, none, none, none, none, none, none, none⟩

/-- Admin fields whose pickup address holds a manual, non-empty edit. -/
def manualAdminFields : AdminFields :=
  ⟨some "Manual St", none, none, none, none, none⟩

/-- Admin fields whose pickup address is present and empty. -/
def emptyAdminFields : AdminFields :=
  ⟨some "", none, none, none, none, none⟩

/-- Re-enabling one optional field yields an enabled field. -/
theorem enabledOk_setFlag_false (el : Option FieldEl) :
    enabledOk (setFlag false el) = true := by
  cases el <;> rfl

/-- After `setDisabled fields false`, every located field is enabled. -/
theorem allEnabled_setDisabled_false (fs : ScopeFields) :
    allEnabled (setDisabled fs false) = true := by
  simp [allEnabled, setDisabled, enabledOk_setFlag_false]

/-- C3: every reconciliation fetch attempt that begins (numeric id, spinner
shown, fields disabled) runs exactly one matching exit — the single
finally-style cleanup — which hides the spinner and re-enables the fields,
for every fetch outcome: success, any Absent-producing failure, or a
thrown/rejected fetch (all summarized by `FetchOutcome`). -/
theorem busyGate_balanced (raw : String) (o : FetchOutcome MiniBody) (st : ScopeState)
    (h : isDigits (jsTrim raw) = true) :
    (handleClientChange raw o st).2.2 = [GateEvent.enter, GateEvent.leave] ∧
    (handleClientChange raw o st).1.spinner = false ∧
    allEnabled (handleClientChange raw o st).1.fields = true := by
  unfold handleClientChange prePhase postPhase
  cases hg : getClientDefaults o <;>
    simp [h, hg, finallyCleanup, allEnabled_setDisabled_false]

/-- Witness for `busyGate_balanced` at id "42" and a network-error outcome. -/
theorem busyGate_balanced_witness :
    isDigits (jsTrim "42") = true ∧
    ((handleClientChange "42" FetchOutcome.networkError emptyScenario).2.2 =
        [GateEvent.enter, GateEvent.leave] ∧
      (handleClientChange "42" FetchOutcome.networkError emptyScenario).1.spinner = false ∧
      allEnabled (handleClientChange "42" FetchOutcome.networkError emptyScenario).1.fields =
        true) :=
  ⟨by decide, busyGate_balanced "42" FetchOutcome.networkError emptyScenario (by decide)⟩

/-- C1 (amended): `handleClientChange` has no fetch-epoch check, so in the
two-selection race (B fired before the fetch of A resolves, response of A
arriving last) each response mutates the fields when it arrives and the
last-arriving response — the stale one, A — wins: the pickup field ends
with the value fetched for A, whatever B returned. -/
theorem twoFetchRun_staleResponseWins (rawA rawB : String) (bA bB : MiniBody)
    (st0 : ScopeState) (f : FieldEl)
    (hA : isDigits (jsTrim rawA) = true) (hB : isDigits (jsTrim rawB) = true)
    (hp : st0.fields.pickup = some f) :
    (twoFetchRun rawA rawB (.success bA) (.success bB) st0).fields.pickup =
      some ⟨jsOrStr bA.pickup_address "", false⟩ := by
  unfold twoFetchRun prePhase postPhase
  simp [hA, hB, getClientDefaults, fetchJSON, finallyCleanup, setDisabled, setFlag,
    applyDefaults, forceSet, hp, normalizeMini]

/-- Witness for `twoFetchRun_staleResponseWins` on the concrete race. -/
theorem twoFetchRun_staleResponseWins_witness :
    isDigits (jsTrim "1") = true ∧ isDigits (jsTrim "2") = true ∧
    emptyScenario.fields.pickup = some ⟨"", false⟩ ∧
    (twoFetchRun "1" "2" (.success miniA) (.success miniB) emptyScenario).fields.pickup =
      some ⟨jsOrStr miniA.pickup_address "", false⟩ :=
  ⟨by decide, by decide, rfl,
    twoFetchRun_staleResponseWins "1" "2" miniA miniB emptyScenario ⟨"", false⟩
      (by decide) (by decide) rfl⟩

/-- C1 counterexample: selections A then B, response of B first, response of
A last — the fields end up reflecting the stale response A ("100 A St"),
not the current-epoch response B ("200 B St"), refuting the claim that
only the current-epoch response may mutate dependent fields. -/
theorem twoFetchRun_counterexample :
    (twoFetchRun "1" "2" (.success miniA) (.success miniB) emptyScenario).fields.pickup =
      some ⟨"100 A St", false⟩ ∧
    (twoFetchRun "1" "2" (.success miniA) (.success miniB) emptyScenario).fields.pickup ≠
      some ⟨"200 B St", false⟩ := by decide

/-- C2: `forceSet` in part_000 writes unconditionally, so a non-empty
manual pickup value "Manual St" is overwritten by the fetched
"12 Elm St" — contradicting the fill-if-empty policy that the sibling
script `applyClientDefaults` (third conjunct) does implement, where the
same non-empty field is left unchanged. -/
theorem forceSet_overwrites_manual_value :
    manualState.fields.pickup = some ⟨"Manual St", false⟩ ∧
    (handleClientChange "42" (.success overwriteBody) manualState).1.fields.pickup =
      some ⟨"12 Elm St", false⟩ ∧
    applyClientDefaults "42" (.body ⟨some true, some elmClient⟩) manualAdminFields =
      manualAdminFields := by
  refine ⟨by decide, by decide, rfl⟩

/-- C4 counterexample: `fetchClientDefaults` has no try/catch and no
content-type check, so a network error or a non-JSON body rejects past its
boundary instead of being converted to Absent. -/
theorem fetchClientDefaults_networkError_rejects :
    fetchClientDefaults "42" FetchOutcome.networkError = Except.error () ∧
    fetchClientDefaults "42" FetchOutcome.nonJSON = Except.error () :=
  ⟨rfl, rfl⟩

/-- C4 (amended): the part_000 wrapper `fetchJSON` converts every failure
(non-2xx, non-JSON content type, malformed body, network error) to Absent
and never throws; `fetchClientDefaults` converts only a non-2xx status and
an `ok`-false/missing body to Absent, while a non-JSON body, a malformed
body, or a network error rejects to its caller; and `applyClientDefaults`
never throws — its try/catch reduces a rejected fetch, an unparseable
body, and an `ok`-falsy body to a no-op — but it performs no HTTP-status
check at all, so any response whose body parses as `{ok:true, client}`,
non-2xx included, fills the empty fields like a success (last conjunct). -/
theorem defaultsClient_failureModes :
    (∀ b : MiniBody, fetchJSON (.success b) = some b) ∧
    fetchJSON FetchOutcome.httpError = none ∧
    fetchJSON FetchOutcome.nonJSON = none ∧
    fetchJSON FetchOutcome.badJSON = none ∧
    fetchJSON FetchOutcome.networkError = none ∧
    (∀ c : Option ClientObj, fetchClientDefaults "42" (.success ⟨some true, c⟩) = .ok c) ∧
    (∀ c : Option ClientObj, fetchClientDefaults "42" (.success ⟨some false, c⟩) = .ok none) ∧
    (∀ c : Option ClientObj, fetchClientDefaults "42" (.success ⟨none, c⟩) = .ok none) ∧
    fetchClientDefaults "42" FetchOutcome.httpError = Except.ok none ∧
    fetchClientDefaults "42" FetchOutcome.nonJSON = Except.error () ∧
    fetchClientDefaults "42" FetchOutcome.badJSON = Except.error () ∧
    fetchClientDefaults "42" FetchOutcome.networkError = Except.error () ∧
    (∀ fs : AdminFields, applyClientDefaults "42" RawFetch.parseError fs = fs) ∧
    (∀ fs : AdminFields, applyClientDefaults "42" RawFetch.networkError fs = fs) ∧
    (∀ (fs : AdminFields) (c : Option ClientObj),
      applyClientDefaults "42" (.body ⟨some false, c⟩) fs = fs) ∧
    (∀ (fs : AdminFields) (c : Option ClientObj),
      applyClientDefaults "42" (.body ⟨none, c⟩) fs = fs) ∧
    applyClientDefaults "42" (.body ⟨some true, some elmClient⟩) emptyAdminFields =
      ⟨some "12 Elm St", none, none, none, none, none⟩ :=
  ⟨fun _ => rfl, rfl, rfl, rfl, rfl, fun _ => rfl, fun _ => rfl, fun _ => rfl,
    rfl, rfl, rfl, rfl, fun _ => rfl, fun _ => rfl, fun _ _ => rfl,
    fun _ _ => rfl, rfl⟩

/-- C5 counterexample: on the section 8.7 scenario the reported filled list
is every located base field `forceSet` touched — including unchanged
ones — not the claimed ["pickup_address", "notes"]. -/
theorem scenario_filledList_counterexample :
    (handleClientChange "42" (.success scenarioBody) emptyScenario).2.1 =
      ["pickup_address", "dropoff_address", "start_time/pickup_time", "notes"] ∧
    (handleClientChange "42" (.success scenarioBody) emptyScenario).2.1 ≠
      ["pickup_address", "notes"] := by decide

/-- C5 (amended): after the section 8.7 reconciliation the pickup address
is "12 Elm St", the dropoff address is the (explicitly empty) "", the
notes are "VIP", and the reported filled list is the four base field
names that were written, changed or not. -/
theorem scenario_end_to_end_amended :
    (handleClientChange "42" (.success scenarioBody) emptyScenario).1.fields.pickup =
      some ⟨"12 Elm St", false⟩ ∧
    (handleClientChange "42" (.success scenarioBody) emptyScenario).1.fields.dropoff =
      some ⟨"", false⟩ ∧
    (handleClientChange "42" (.success scenarioBody) emptyScenario).1.fields.notes =
      some ⟨"VIP", false⟩ ∧
    (handleClientChange "42" (.success scenarioBody) emptyScenario).2.1 =
      ["pickup_address", "dropoff_address", "start_time/pickup_time", "notes"] := by decide

/-- C6: every rebuild produces exactly the placeholder followed by one
option per result in response order, labeled by name with a synthetic
"Client #id" fallback, ends by dispatching an input then a change event,
and keeps the previous selection whenever its value occurs among the new
option values. -/
theorem rebuildOptions_spec (sel : SelectEl) (results : List SearchItem) :
    (rebuildOptions sel results none).1.options =
      placeholderOption :: results.map optionFor ∧
    (rebuildOptions sel results none).2 = ["input", "change"] ∧
    (sel.value ∈ ((rebuildOptions sel results none).1.options.map OptionEl.value) →
      (rebuildOptions sel results none).1.value = sel.value) := by
  refine ⟨rfl, rfl, ?_⟩
  intro hmem
  show (if sel.value == "" then ""
    else if (placeholderOption :: results.map optionFor).any
        (fun o => o.value == sel.value) then sel.value else "") = sel.value
  by_cases h0 : sel.value = ""
  · simp [h0]
  · have hb : (sel.value == "") = false := by simp [h0]
    have hany : ((placeholderOption :: results.map optionFor).any
        (fun o => o.value == sel.value)) = true := by
      rw [List.any_eq_true]
      rcases List.mem_map.mp hmem with ⟨o, ho, hov⟩
      exact ⟨o, ho, by simp [hov]⟩
    simp [hb, hany]

/-- Witness for `rebuildOptions_spec`: the spec 8.4 round trip — query
result Jane Doe with id 7, previous selection "7" stays selected and the
control holds exactly two options. -/
theorem rebuildOptions_spec_witness :
    (rebuildOptions ⟨[], "7"⟩ [⟨7, some "Jane Doe"⟩] none).1.options =
      placeholderOption :: ([⟨7, some "Jane Doe"⟩] : List SearchItem).map optionFor ∧
    (rebuildOptions ⟨[], "7"⟩ [⟨7, some "Jane Doe"⟩] none).2 = ["input", "change"] ∧
    (rebuildOptions ⟨[], "7"⟩ [⟨7, some "Jane Doe"⟩] none).1.value = "7" :=
  have h := rebuildOptions_spec ⟨[], "7"⟩ [⟨7, some "Jane Doe"⟩]
  ⟨h.1, h.2.1, h.2.2 (by decide)⟩

/-- C7 counterexample: the admin-autocomplete branch of `currentClientId`
returns any truthy hidden value without a digit check, so the non-numeric
value "abc" flows into the change handler and a defaults fetch is
issued — refuting the claim that every non-numeric value suppresses
reconciliation. -/
theorem adminHidden_nonNumeric_fetches :
    isDigits "abc" = false ∧
    currentClientId (some "abc") none = some "abc" ∧
    adminFetchIssued (some "abc") none = true := by decide

/-- C7 (amended): `handleClientChange` suppresses reconciliation for every
empty or non-numeric control value — no state change, no filled fields, no
busy-gate activity — and the raw-id branch of `currentClientId` rejects
every non-numeric value; only the admin-autocomplete hidden branch lacks
the digit check. -/
theorem nonNumeric_suppresses (raw : String) (o : FetchOutcome MiniBody) (st : ScopeState)
    (h : isDigits (jsTrim raw) = false) :
    handleClientChange raw o st = (st, [], []) ∧
    (∀ v : String, isDigits v = false → currentClientId none (some v) = none) := by
  constructor
  · simp [handleClientChange, prePhase, h]
  · intro v hv
    simp [currentClientId, currentPkBranch, hv]

/-- Witness for `nonNumeric_suppresses` at "abc" and "1a". -/
theorem nonNumeric_suppresses_witness :
    isDigits (jsTrim "abc") = false ∧
    handleClientChange "abc" FetchOutcome.networkError emptyScenario =
      (emptyScenario, [], []) ∧
    isDigits "1a" = false ∧ currentClientId none (some "1a") = none :=
  have h := nonNumeric_suppresses "abc" FetchOutcome.networkError emptyScenario (by decide)
  ⟨by decide, h.1, by decide, h.2 "1a" (by decide)⟩

/-- C8 counterexample: `searchClients` has no try/catch, so a network error
rejects to its caller instead of yielding the empty page; the debounced
`run` handler is what catches it and shows "Search failed". -/
theorem searchClients_networkError_rejects :
    searchClients "Jane" FetchOutcome.networkError = Except.error () ∧
    runStatus "Jane" FetchOutcome.networkError = "Search failed" :=
  ⟨rfl, rfl⟩

/-- C8 (amended): for every query, a non-2xx status or a non-JSON content
type yields the empty page without raising, a parsed body is returned as
is, but a network error or a malformed JSON body rejects to the caller,
whose catch block reports "Search failed". -/
theorem searchClients_failureModes (q : String) :
    searchClients q FetchOutcome.httpError = Except.ok emptyPage ∧
    searchClients q FetchOutcome.nonJSON = Except.ok emptyPage ∧
    (∀ p : SearchPage, searchClients q (.success p) = Except.ok p) ∧
    searchClients q FetchOutcome.badJSON = Except.error () ∧
    searchClients q FetchOutcome.networkError = Except.error () ∧
    runStatus q FetchOutcome.networkError = "Search failed" ∧
    runStatus q FetchOutcome.badJSON = "Search failed" :=
  ⟨rfl, rfl, fun _ => rfl, rfl, rfl, rfl, rfl⟩

/-- C9 counterexample: two bind-all passes over one scope register two
change listeners (no bound-marker guard exists), so one selection change
triggers two reconciliation fetches, not at most one. -/
theorem bindAll_twice_counterexample :
    bindAllPass (bindAllPass [ScopeBind.mk 0]) = [ScopeBind.mk 2] ∧
    fetchesPerChange (ScopeBind.mk 2) (some "5") none = 2 ∧ (2 : Nat) ≠ 1 := by decide

/-- C9 (amended): `bindRow` is not idempotent — every bind-all pass adds
one more change listener to every matching scope, and one selection change
triggers as many fetches as there are registered listeners. -/
theorem bindAll_accumulates_listeners (scopes : List ScopeBind) :
    (bindAllPass (bindAllPass scopes)).map ScopeBind.listeners =
      scopes.map (fun s => s.listeners + 2) ∧
    (∀ (s : ScopeBind) (autoHidden clientPkInput : Option String),
      fetchesPerChange (bindRow s) autoHidden clientPkInput =
        if adminFetchIssued autoHidden clientPkInput then s.listeners + 1 else 0) := by
  constructor
  · induction scopes with
    | nil => rfl
    | cons s t ih => simp_all [bindAllPass, bindRow]
  · intro s autoHidden clientPkInput
    cases hf : adminFetchIssued autoHidden clientPkInput <;>
      simp [fetchesPerChange, bindRow, hf]

/-- C10: when the previously selected value occurs nowhere among the new
result ids, the rebuilt control falls back to the auto-selected placeholder
— its value is the empty string — and the input and change events are
still dispatched, so downstream listeners observe a cleared selection. -/
theorem rebuild_clears_missing_selection (sel : SelectEl) (results : List SearchItem)
    (h0 : sel.value ≠ "")
    (h : ∀ r ∈ results, toString r.id ≠ sel.value) :
    (rebuildOptions sel results none).1.value = "" ∧
    (rebuildOptions sel results none).2 = ["input", "change"] := by
  refine ⟨?_, rfl⟩
  have hb : (sel.value == "") = false := by simp [h0]
  have hany : ((placeholderOption :: results.map optionFor).any
      (fun o => o.value == sel.value)) = false := by
    rw [List.any_eq_false]
    intro o ho
    rcases List.mem_cons.mp ho with hph | hmap
    · subst hph
      simp [placeholderOption]
      exact fun he => h0 he.symm
    · rcases List.mem_map.mp hmap with ⟨r, hr, hor⟩
      subst hor
      simp [optionFor]
      exact h r hr
  show (if sel.value == "" then ""
    else if (placeholderOption :: results.map optionFor).any
        (fun o => o.value == sel.value) then sel.value else "") = ""
  simp [hb, hany]

/-- Witness for `rebuild_clears_missing_selection`: selection "42" vanishes
from a result page holding only Jane Doe (id 7). -/
theorem rebuild_clears_missing_selection_witness :
    (SelectEl.mk [] "42").value ≠ "" ∧
    (rebuildOptions ⟨[], "42"⟩ [⟨7, some "Jane Doe"⟩] none).1.value = "" ∧
    (rebuildOptions ⟨[], "42"⟩ [⟨7, some "Jane Doe"⟩] none).2 = ["input", "change"] :=
  have h := rebuild_clears_missing_selection ⟨[], "42"⟩ [⟨7, some "Jane Doe"⟩]
    (by decide) (by decide)
  ⟨by decide, h.1, h.2⟩

end Bahati
